import Mathlib

/-! Verification development for the Covid-19 API v2 model
(`app/models/covid_model_api_v2.py`, class `NovelCoronaAPIv2`).

Modelling conventions (shallow embedding):
* The daily-report DataFrame is a list of typed rows; the wide time-series
  DataFrames are a `Frame` (ordered column-name list plus rows of cells);
  Python dicts are ordered association lists.
* Cells are JSON-like values `J`.  Coordinate cells pass through `float()`
  unchanged and are modelled by their numeric value (`J.num`); float/int
  distinctions are not modelled.
* `datetime.strptime(s, "%Y-%m-%d %H:%M:%S")` is modelled by `parseTs`,
  reproducing CPython's regex semantics for these directives (1-2 digit
  months/days/hours/minutes/seconds allowed, full-string match, calendar
  validation) and `.timestamp()` as UTC epoch seconds.
* Python exceptions become `Except Err` / `Option`; error constructors are
  named after the spec's taxonomy where the spec names the exception
  (`EmptyDataset` for `max([])`, `UnknownCase` for the time-series dict
  KeyError, `LocationNotFound` for the lookup KeyError / `[0]` IndexError,
  `MalformedTimestamp` for the strptime ValueError); remaining reshaping
  exceptions (KeyError/ValueError on cells) are merged into `typeError`.
* `DataFrame.sort_values(by='Confirmed', ascending=False)` uses the default
  `kind='quicksort'`, for which pandas does not guarantee the relative order
  of equal keys (only `mergesort`/`stable` are stable).  The executable model
  must pick one concrete output, and `List.insertionSort` ordered by
  `Confirmed` descending is that representative; no theorem below relies on
  the representative's tie order, which the program does not guarantee.
  `groupby` sorts its keys (pandas default `sort=True`).
* The mutable `self.scheme` dict reused across calls is modelled by explicit
  state passing: every query returns the updated service next to its result.
-/

namespace Covid

/-- JSON-like values: DataFrame cells and reshaped output records. -/
inductive J where
  | null
  | str (s : String)
  | num (n : Int)
  | arr (l : List J)
  | obj (l : List (String × J))
deriving Inhabited

/-- One row of the daily-reports DataFrame (`get_data_daily_reports()`),
restricted to the columns the model reads. -/
structure DailyReportRow where
  country_Region : String
  last_Update : String
  confirmed : Int
  deaths : Int
  recovered : Int
  active : Int
deriving DecidableEq, Inhabited

/-- One row of `df_grp_by_country` after `reset_index()` and the column
renaming to `['location','confirmed','deaths','recovered','active']`. -/
structure CountryAgg where
  location : String
  confirmed : Int
  deaths : Int
  recovered : Int
  active : Int
deriving DecidableEq, Inhabited

/-- A wide DataFrame: ordered column names and rows of cells. -/
structure Frame where
  cols : List String
  rows : List (List J)
deriving Inhabited

/-- The four externally loaded tables (`utils.get_data` collaborators). -/
structure Inputs where
  df : List DailyReportRow
  df_time_series : List (String × Frame)
  df_US_time_series : List (String × Frame)
  lookup_table : List (String × String)
deriving Inhabited

/-- Errors: the spec's taxonomy plus `typeError` for the remaining
cell-coercion / missing-column exceptions raised while reshaping. -/
inductive Err where
  | malformedTimestamp
  | emptyDataset
  | locationNotFound
  | unknownCase
  | typeError
deriving DecidableEq, Inhabited

/-- Payloads that the model ever stores in `scheme['data']`. -/
inductive Data where
  | null
  | int (n : Int)
  | totals (confirmed deaths recovered active : Int)
  | countries (l : List CountryAgg)
  | country (c : CountryAgg)
  | jlist (l : List J)
  | globalSeries (l : List (String × List (String × J)))
deriving Inhabited

/-- The response envelope `self.scheme = {'data': ..., 'dt': ..., 'ts': ...}`. -/
structure Scheme where
  data : Data
  dt : String
  ts : Int
deriving Inhabited

/-- The constructed service state (`self` after `__init__`). -/
structure Service where
  df : List DailyReportRow
  df_time_series : List (String × Frame)
  df_US_time_series : List (String × Frame)
  lookup_table : List (String × String)
  df_grp_by_country : List CountryAgg
  datetime : String
  timestamp : Int
  scheme : Scheme
deriving Inhabited

/-- Python dict lookup on an ordered association list (first binding wins;
inserted dicts have unique keys, so this is exact). -/
def lookupAssoc {α : Type} : List (String × α) → String → Option α
  | [], _ => none
  | p :: rest, k => if p.1 = k then some p.2 else lookupAssoc rest k

/-- Fail-fast map (a Python comprehension whose body may raise). -/
def mapOpt {α β : Type} (f : α → Option β) : List α → Option (List β)
  | [] => some []
  | a :: l =>
    match f a, mapOpt f l with
    | some b, some bs => some (b :: bs)
    | _, _ => none

/-- Duplicate removal keeping first occurrences (Python dict-key order). -/
def dedupFirst {α : Type} [DecidableEq α] (seen : List α) : List α → List α
  | [] => []
  | a :: l => if a ∈ seen then dedupFirst seen l else a :: dedupFirst (a :: seen) l

/-- Lexicographic comparison on code points (Python `str.__lt__`), defined
structurally so that it evaluates by kernel reduction. -/
def lexLt : List Char → List Char → Bool
  | [], [] => false
  | [], _ :: _ => true
  | _ :: _, [] => false
  | a :: as, b :: bs => if a < b then true else if b < a then false else lexLt as bs

/-- String comparison used by Python's `max` on `Last_Update` strings. -/
def strLt (a b : String) : Bool := lexLt a.data b.data

/-- Python `max(u :: us)`: keeps the current value unless a later one is
strictly greater. -/
def maxString (u : String) (us : List String) : String :=
  us.foldl (fun a b => if strLt a b then b else a) u

/-- ASCII lowercasing of one character (Python `str.lower` restricted to
ASCII, which covers the data; defined structurally so it evaluates). -/
def charLower (c : Char) : Char :=
  if 'A' ≤ c ∧ c ≤ 'Z' then Char.ofNat (c.toNat + 32) else c

/-- ASCII uppercasing of one character. -/
def charUpper (c : Char) : Char :=
  if 'a' ≤ c ∧ c ≤ 'z' then Char.ofNat (c.toNat - 32) else c

/-- `str.lower()`. -/
def strLower (s : String) : String := ⟨s.data.map charLower⟩

/-- `str.upper()`. -/
def strUpper (s : String) : String := ⟨s.data.map charUpper⟩

/-- Numeric value of a decimal digit character. -/
def digitVal : Char → Option Nat
  | c => if c.isDigit then some (c.toNat - 48) else none

/-- Exactly four digits (`%Y`). -/
def parse4 : List Char → Option (Nat × List Char)
  | a :: b :: c :: d :: rest =>
    match digitVal a, digitVal b, digitVal c, digitVal d with
    | some x, some y, some z, some w => some (x * 1000 + y * 100 + z * 10 + w, rest)
    | _, _, _, _ => none
  | _ => none

/-- One or two digits with value in `[lo, hi]` (the CPython strptime regexes
for `%m`, `%d`, `%H`, `%M`, `%S`: a two-digit match is preferred, falling
back to a single digit exactly when the two-digit value is out of range). -/
def parse2 (lo hi : Nat) : List Char → Option (Nat × List Char)
  | a :: b :: rest =>
    match digitVal a, digitVal b with
    | some x, some y =>
      let v := x * 10 + y
      if lo ≤ v ∧ v ≤ hi then some (v, rest)
      else if lo ≤ x ∧ x ≤ hi then some (x, b :: rest)
      else none
    | some x, none => if lo ≤ x ∧ x ≤ hi then some (x, b :: rest) else none
    | none, _ => none
  | [a] =>
    match digitVal a with
    | some x => if lo ≤ x ∧ x ≤ hi then some (x, []) else none
    | none => none
  | [] => none

/-- Literal separator character. -/
def expectCh (c : Char) : List Char → Option (List Char)
  | x :: rest => if x = c then some rest else none
  | [] => none

/-- Gregorian leap year (as used by `datetime`). -/
def isLeap (y : Nat) : Bool := (y % 4 == 0 && y % 100 != 0) || y % 400 == 0

/-- Length of month `m` (1-12) in year `y`. -/
def daysInMonth (y m : Nat) : Nat :=
  if m = 2 then (if isLeap y then 29 else 28)
  else if m ∈ [4, 6, 9, 11] then 30 else 31

/-- Days in year `y` before month `m`. -/
def daysBeforeMonth (y m : Nat) : Nat :=
  (List.range (m - 1)).foldl (fun acc i => acc + daysInMonth y (i + 1)) 0

/-- Python `date.toordinal`: day number since 0001-01-01 (that day is 1). -/
def toOrdinal (y m d : Nat) : Int :=
  let py := y - 1
  (365 * py + py / 4 - py / 100 + py / 400 + daysBeforeMonth y m + d : Nat)

/-- Seconds since the Unix epoch (719163 = ordinal of 1970-01-01); the
container clock is modelled as UTC, so `.timestamp()` is pure arithmetic. -/
def epochSeconds (y m d hh mi ss : Nat) : Int :=
  (toOrdinal y m d - 719163) * 86400 + (hh * 3600 + mi * 60 + ss : Nat)

/-- Model of `datetime.strptime(s, '%Y-%m-%d %H:%M:%S').timestamp()`:
`none` exactly when strptime raises `ValueError`. -/
def parseTs (s : String) : Option Int := do
  let cs := s.data
  let (y, cs) ← parse4 cs
  let cs ← expectCh '-' cs
  let (m, cs) ← parse2 1 12 cs
  let cs ← expectCh '-' cs
  let (d, cs) ← parse2 1 31 cs
  let cs ← expectCh ' ' cs
  let (hh, cs) ← parse2 0 23 cs
  let cs ← expectCh ':' cs
  let (mi, cs) ← parse2 0 59 cs
  let cs ← expectCh ':' cs
  let (ss, cs) ← parse2 0 59 cs
  match cs with
  | [] => if 1 ≤ y ∧ d ≤ daysInMonth y m then some (epochSeconds y m d hh mi ss) else none
  | _ => none

/-- The `groupby('Country_Region')[concerned_columns].sum()` aggregate:
keys are the distinct country names sorted ascending (pandas `sort=True`),
each with the per-column sums over that country's rows; `.astype(int)` is
the identity here since cells are already integers. -/
def groupByCountry (rows : List DailyReportRow) : List CountryAgg :=
  (List.insertionSort (fun a b => strLt b a = false)
      (dedupFirst [] (rows.map fun r => r.country_Region))).map fun c =>
    { location := c
      confirmed := ((rows.filter fun r => r.country_Region = c).map fun r => r.confirmed).sum
      deaths := ((rows.filter fun r => r.country_Region = c).map fun r => r.deaths).sum
      recovered := ((rows.filter fun r => r.country_Region = c).map fun r => r.recovered).sum
      active := ((rows.filter fun r => r.country_Region = c).map fun r => r.active).sum }

instance : DecidableRel (fun a b : String => strLt b a = false) :=
  fun a b => instDecidableEqBool (strLt b a) false

/-- `max(self.df['Last_Update'].tolist())` (defined for any input; `__init__`
raises before using it when the row list is empty). -/
def maxLastUpdate (inp : Inputs) : String :=
  match inp.df.map fun r => r.last_Update with
  | [] => ""
  | u :: us => maxString u us

/-- `NovelCoronaAPIv2.__init__`: build the aggregate, compute `dt`/`ts` from
the maximum `Last_Update` string, and allocate the shared scheme. -/
def init (inp : Inputs) : Except Err Service :=
  match inp.df.map fun r => r.last_Update with
  | [] => Except.error Err.emptyDataset
  | u :: us =>
    match parseTs (maxString u us) with
    | none => Except.error Err.malformedTimestamp
    | some ts =>
      Except.ok
        { df := inp.df
          df_time_series := inp.df_time_series
          df_US_time_series := inp.df_US_time_series
          lookup_table := inp.lookup_table
          df_grp_by_country := groupByCountry inp.df
          datetime := maxString u us
          timestamp := ts
          scheme := { data := Data.null, dt := maxString u us, ts := ts } }

/-- The descending-by-`Confirmed` order used by `get_current`'s
`sort_values(by='Confirmed', ascending=False)`. -/
def byConfDesc (a b : CountryAgg) : Prop := b.confirmed ≤ a.confirmed

instance : DecidableRel byConfDesc := fun a b => Int.decLe b.confirmed a.confirmed

/-- The `data` list built by `get_current`: the per-country aggregate sorted
by `Confirmed` descending, reindexed and renamed.  The source's default
`kind='quicksort'` gives no tie-order guarantee, so `List.insertionSort` is
only an arbitrary executable representative of the sorted permutations; no
theorem in this file depends on where it places equal-`Confirmed` records. -/
def currentData (s : Service) : List CountryAgg :=
  List.insertionSort byConfDesc s.df_grp_by_country

/-- `get_current()`. -/
def get_current (s : Service) : Service × Scheme :=
  let sch := { s.scheme with data := Data.countries (currentData s) }
  ({ s with scheme := sch }, sch)

/-- `get_country(country_name)`: note that the first membership test compares
the *unmodified* argument against the lowercased locations, and that a
lookup-table miss (KeyError) and an empty filter (`[0]` IndexError) are both
query failures. -/
def get_country (s : Service) (country_name : String) : Service × Except Err Scheme :=
  match
    (if country_name ∈ (currentData s).map (fun cd => strLower cd.location) then
       Except.ok country_name
     else
       match lookupAssoc s.lookup_table (strUpper country_name) with
       | some v => Except.ok v
       | none => Except.error Err.locationNotFound : Except Err String)
  with
  | Except.error e => ((get_current s).1, Except.error e)
  | Except.ok cname =>
    match (currentData s).filter (fun cd => decide (strLower cname = strLower cd.location)) with
    | [] => ((get_current s).1, Except.error Err.locationNotFound)
    | cd :: _ =>
      let sch := { (get_current s).1.scheme with data := Data.country cd }
      ({ (get_current s).1 with scheme := sch }, Except.ok sch)

/-- `get_confirmed()`: sum over every raw daily-report row. -/
def get_confirmed (s : Service) : Service × Scheme :=
  let sch := { s.scheme with data := Data.int ((s.df.map fun r => r.confirmed).sum) }
  ({ s with scheme := sch }, sch)

/-- `get_deaths()`. -/
def get_deaths (s : Service) : Service × Scheme :=
  let sch := { s.scheme with data := Data.int ((s.df.map fun r => r.deaths).sum) }
  ({ s with scheme := sch }, sch)

/-- `get_recovered()`. -/
def get_recovered (s : Service) : Service × Scheme :=
  let sch := { s.scheme with data := Data.int ((s.df.map fun r => r.recovered).sum) }
  ({ s with scheme := sch }, sch)

/-- `get_active()`. -/
def get_active (s : Service) : Service × Scheme :=
  let sch := { s.scheme with data := Data.int ((s.df.map fun r => r.active).sum) }
  ({ s with scheme := sch }, sch)

/-- `get_total()`: the same four full-column sums, packed into one object. -/
def get_total (s : Service) : Service × Scheme :=
  let sch := { s.scheme with data :=
    (Data.totals
      ((s.df.map fun r => r.confirmed).sum)
      ((s.df.map fun r => r.deaths).sum)
      ((s.df.map fun r => r.recovered).sum)
      ((s.df.map fun r => r.active).sum)) }
  ({ s with scheme := sch }, sch)

/-- The per-row dicts produced by `frame.T.to_dict().values()`: one ordered
column-name-to-cell dict per original row, in row order. -/
def frameRows (fr : Frame) : List (List (String × J)) :=
  fr.rows.map fun r => fr.cols.zip r

/-- `int(v)` on a cell: only numeric cells convert (a non-numeric cell makes
the comprehension raise). -/
def cellInt : J → Option Int
  | J.num n => some n
  | _ => none

/-- `float(v)` on a cell: numeric cells pass through (floats are modelled by
their numeric value). -/
def floatJ : J → Option J
  | J.num n => some (J.num n)
  | _ => none

/-- `excluded_cols` of `__extract_time_series`. -/
def excludedGlobalCols : List String := ["Province/State", "Country/Region", "Lat", "Long"]

/-- One record of `__extract_time_series` (one row dict in, one dict out). -/
def extract_row_global (row : List (String × J)) : Option J := do
  let ps ← lookupAssoc row "Province/State"
  let cr ← lookupAssoc row "Country/Region"
  let lat ← lookupAssoc row "Lat" >>= floatJ
  let long ← lookupAssoc row "Long" >>= floatJ
  let ts ← mapOpt (fun kv => (cellInt kv.2).map fun n => (kv.1, n))
      (row.filter fun kv => decide (¬ kv.1 ∈ excludedGlobalCols))
  some (J.obj
    [("Province/State", ps), ("Country/Region", cr),
     ("Coordinates", J.obj [("Lat", lat), ("Long", long)]),
     ("TimeSeries", J.arr (ts.map fun p => J.obj [("date", J.str p.1), ("value", J.num p.2)]))])

/-- `__extract_time_series` over the whole frame. -/
def extract_time_series (fr : Frame) : Option (List J) :=
  mapOpt extract_row_global (frameRows fr)

/-- `excluded_cols` of `__extract_US_time_series`. -/
def excludedUSCols : List String :=
  ["UID", "iso2", "iso3", "code3", "FIPS", "Admin2", "Province_State", "Country_Region",
   "Lat", "Long_", "Combined_Key", "Population"]

/-- One record of `__extract_US_time_series`. -/
def extract_US_row (row : List (String × J)) : Option J := do
  let ps ← lookupAssoc row "Province_State"
  let cr ← lookupAssoc row "Country_Region"
  let uid ← lookupAssoc row "UID"
  let i2 ← lookupAssoc row "iso2"
  let i3 ← lookupAssoc row "iso3"
  let c3 ← lookupAssoc row "code3"
  let fips ← lookupAssoc row "FIPS"
  let adm ← lookupAssoc row "Admin2"
  let lat ← lookupAssoc row "Lat" >>= floatJ
  let long ← lookupAssoc row "Long_" >>= floatJ
  let ts ← mapOpt (fun kv => (cellInt kv.2).map fun n => (kv.1, n))
      (row.filter fun kv => decide (¬ kv.1 ∈ excludedUSCols))
  some (J.obj
    [("Province_State", ps), ("Country_Region", cr),
     ("Info", J.obj [("UID", uid), ("iso2", i2), ("iso3", i3), ("code3", c3),
                     ("FIPS", fips), ("Admin2", adm)]),
     ("Coordinates", J.obj [("Lat", lat), ("Long", long)]),
     ("TimeSeries", J.arr (ts.map fun p => J.obj [("date", J.str p.1), ("value", J.num p.2)]))])

/-- `__extract_US_time_series` over the whole frame. -/
def extract_US_time_series (fr : Frame) : Option (List J) :=
  mapOpt extract_US_row (frameRows fr)

/-- Two's-complement `int32` cast (`astype('int32')` on a cell). -/
def int32cast (n : Int) : Int := (n + 2 ^ 31) % 2 ^ 32 - 2 ^ 31

/-- Sum of the `j`-th date column (position `j` within `iloc[:, 4:]`) after
the `int32` cast; `none` when a cell is missing or non-numeric. -/
def colSum4 (fr : Frame) (j : Nat) : Option Int :=
  (mapOpt (fun r =>
      match (r.drop 4)[j]? with
      | some c => cellInt c
      | none => none) fr.rows).map
    fun l => (l.map int32cast).sum

/-- The per-date totals of one case kind: `df.iloc[:, 4:].astype('int32').sum(axis=0)`
as the ordered date-to-total list. -/
def colSumsFrom4 (fr : Frame) : Option (List (String × Int)) :=
  mapOpt (fun p => (colSum4 fr p.1).map fun v => (p.2, v)) (fr.cols.drop 4).enum

/-- `__extract_time_series_global`: per-kind column sums, concatenated,
transposed and turned into one `{kind: total}` dict per date (a date missing
from some kind becomes NaN, modelled as `J.null`); `pd.concat` of an empty
list raises. -/
def extract_time_series_global (dfs : List (String × Frame)) :
    Option (List (String × List (String × J))) :=
  if dfs.isEmpty then none
  else do
    let sums ← mapOpt (fun kf => (colSumsFrom4 kf.2).map fun l => (kf.1, l)) dfs
    let dates := dedupFirst [] ((sums.map fun kl => kl.2.map Prod.fst).flatten)
    some (dates.map fun d =>
      (d, sums.map fun kl =>
        (kl.1, match lookupAssoc kl.2 d with
               | some v => J.num v
               | none => J.null)))

/-- `get_time_series(case)`. -/
def get_time_series (s : Service) (case : String) : Service × Except Err Scheme :=
  if case ∉ (["global"] : List String) then
    match lookupAssoc s.df_time_series case with
    | none => (s, Except.error Err.unknownCase)
    | some fr =>
      match extract_time_series fr with
      | none => (s, Except.error Err.typeError)
      | some res =>
        let sch := { s.scheme with data := Data.jlist res }
        ({ s with scheme := sch }, Except.ok sch)
  else
    match extract_time_series_global s.df_time_series with
    | none => (s, Except.error Err.typeError)
    | some res =>
      let sch := { s.scheme with data := Data.globalSeries res }
      ({ s with scheme := sch }, Except.ok sch)

/-- `get_US_time_series(case)`: an invalid case silently yields `data = []`. -/
def get_US_time_series (s : Service) (case : String) : Service × Except Err Scheme :=
  if case ∉ (["confirmed", "deaths"] : List String) then
    let sch := { s.scheme with data := Data.jlist [] }
    ({ s with scheme := sch }, Except.ok sch)
  else
    match lookupAssoc s.df_US_time_series case with
    | none => (s, Except.error Err.typeError)
    | some fr =>
      match extract_US_time_series fr with
      | none => (s, Except.error Err.typeError)
      | some res =>
        let sch := { s.scheme with data := Data.jlist res }
        ({ s with scheme := sch }, Except.ok sch)

/-- One public query call. -/
inductive Query where
  | current
  | country (name : String)
  | confirmedQ
  | deathsQ
  | recoveredQ
  | activeQ
  | total
  | timeSeries (case : String)
  | usTimeSeries (case : String)

/-- Dispatch one query, returning the updated service and the call's result
(the shared scheme on success, the raised error otherwise). -/
def step (s : Service) : Query → Service × Except Err Scheme
  | Query.current => ((get_current s).1, Except.ok (get_current s).2)
  | Query.country n => get_country s n
  | Query.confirmedQ => ((get_confirmed s).1, Except.ok (get_confirmed s).2)
  | Query.deathsQ => ((get_deaths s).1, Except.ok (get_deaths s).2)
  | Query.recoveredQ => ((get_recovered s).1, Except.ok (get_recovered s).2)
  | Query.activeQ => ((get_active s).1, Except.ok (get_active s).2)
  | Query.total => ((get_total s).1, Except.ok (get_total s).2)
  | Query.timeSeries c => get_time_series s c
  | Query.usTimeSeries c => get_US_time_series s c

/-- The service state after a sequence of query calls. -/
def runQueries (s : Service) (qs : List Query) : Service :=
  qs.foldl (fun s q => (step s q).1) s

/-! Spec-side definitions: descriptions written in the (amended) spec's
words, to be compared with the translated code above. -/

/-- Name resolution as `get_country` actually performs it: the lookup table
is consulted exactly when the argument is not literally equal to the
lowercase form of some aggregated country name (the first membership test
compares the unmodified argument against the lowercased locations, so it is
not a case-insensitive match). -/
def resolve_name (s : Service) (country_name : String) : Except Err String :=
  if country_name ∈ (currentData s).map (fun cd => strLower cd.location) then
    Except.ok country_name
  else
    match lookupAssoc s.lookup_table (strUpper country_name) with
    | some v => Except.ok v
    | none => Except.error Err.locationNotFound

/-- The first aggregated record whose lowercased location equals the
lowercased resolved name (the `[0]` of the filter comprehension). -/
def first_match (s : Service) (resolved : String) : Except Err CountryAgg :=
  match (currentData s).filter (fun cd => decide (strLower resolved = strLower cd.location)) with
  | [] => Except.error Err.locationNotFound
  | cd :: _ => Except.ok cd

/-- Sum of the date column *named* `d` (within `iloc[:, 4:]`, first
occurrence) after the `int32` cast — the spec-side description of one global
daily total. -/
def specColSum (fr : Frame) (d : String) : Option Int :=
  if d ∈ fr.cols.drop 4 then colSum4 fr ((fr.cols.drop 4).indexOf d) else none

/-- Spec-side description of the global time-series payload: one
single-entry object per distinct date (in order of first appearance across
the kinds' date columns), whose value maps each case kind to its global
daily total at that date (null when the kind lacks the date). -/
def globalSpecData (dfs : List (String × Frame)) : List (String × List (String × J)) :=
  (dedupFirst [] ((dfs.map fun kf => kf.2.cols.drop 4).flatten)).map fun d =>
    (d, dfs.map fun kf =>
      (kf.1, match specColSum kf.2 d with
             | some v => J.num v
             | none => J.null))

/-- Total version of `int(cell)`, used only under a numeric-cells
hypothesis (defaults to 0 on the unreachable non-numeric case). -/
def cellIntD : J → Int
  | J.num n => n
  | _ => 0

/-- The identity columns of the US time-series schema, in CSV order. -/
def usIdentityCols : List String :=
  ["UID", "iso2", "iso3", "code3", "FIPS", "Admin2", "Province_State", "Country_Region",
   "Lat", "Long_", "Combined_Key", "Population"]

/-! Concrete inputs (used by witnesses and counterexamples). -/

/-- A Thailand daily-report row. -/
def rowTh : DailyReportRow :=
  { country_Region := "Thailand", last_Update := "2020-03-14 10:00:00",
    confirmed := 5, deaths := 1, recovered := 2, active := 2 }

/-- A second Thailand row with an earlier timestamp. -/
def rowTh2 : DailyReportRow :=
  { country_Region := "Thailand", last_Update := "2020-03-13 09:00:00",
    confirmed := 3, deaths := 0, recovered := 1, active := 2 }

/-- A China daily-report row. -/
def rowCn : DailyReportRow :=
  { country_Region := "China", last_Update := "2020-03-14 09:00:00",
    confirmed := 10, deaths := 2, recovered := 3, active := 5 }

/-- A row whose `Last_Update` is malformed but lexicographically small. -/
def rowBad : DailyReportRow :=
  { country_Region := "Thailand", last_Update := "0bad",
    confirmed := 1, deaths := 0, recovered := 0, active := 1 }

/-- A small global wide time-series frame (two rows, two dates). -/
def frameG : Frame :=
  { cols := ["Province/State", "Country/Region", "Lat", "Long", "4/1/20", "4/2/20"]
    rows := [[J.str "", J.str "Thailand", J.num 15, J.num 101, J.num 5, J.num 6],
             [J.str "", J.str "China", J.num 35, J.num 104, J.num 7, J.num 9]] }

/-- A small US wide time-series frame (one county row, two dates). -/
def frameUS : Frame :=
  { cols := usIdentityCols ++ ["4/1/20", "4/2/20"]
    rows := [[J.num 840, J.str "US", J.str "USA", J.num 840, J.num 45001, J.str "Abbeville",
              J.str "South Carolina", J.str "US", J.num 34, J.num (-82),
              J.str "Abbeville, South Carolina, US", J.num 24527, J.num 3, J.num 5]] }

/-- Main example inputs: two countries, a full lookup table. -/
def inpA : Inputs :=
  { df := [rowTh, rowTh2, rowCn]
    df_time_series := [("confirmed", frameG)]
    df_US_time_series := [("confirmed", frameUS), ("deaths", frameUS)]
    lookup_table := [("TH", "Thailand"), ("THAILAND", "Thailand"), ("CN", "China")] }

/-- The service constructed from `inpA`. -/
def serviceA : Service :=
  match init inpA with
  | Except.ok s => s
  | Except.error _ => default

/-- Construction of `serviceA` succeeds. -/
lemma initA_ok : init inpA = Except.ok serviceA := rfl

/-- Inputs whose lookup table maps the ISO code but not the uppercased
country name. -/
def inpB : Inputs :=
  { df := [rowTh]
    df_time_series := []
    df_US_time_series := []
    lookup_table := [("TH", "Thailand")] }

/-- The service constructed from `inpB`. -/
def serviceB : Service :=
  match init inpB with
  | Except.ok s => s
  | Except.error _ => default

/-- Construction of `serviceB` succeeds. -/
lemma initB_ok : init inpB = Except.ok serviceB := rfl

/-- Inputs containing a malformed `Last_Update` that is not the maximum. -/
def inpC : Inputs :=
  { df := [rowBad, rowTh]
    df_time_series := []
    df_US_time_series := []
    lookup_table := [] }

/-- The service constructed from `inpC`. -/
def serviceC : Service :=
  match init inpC with
  | Except.ok s => s
  | Except.error _ => default

/-- Inputs with no daily-report rows. -/
def inpEmpty : Inputs :=
  { df := [], df_time_series := [], df_US_time_series := [], lookup_table := [] }

/-- Inputs whose maximum `Last_Update` is malformed. -/
def inpBadTs : Inputs :=
  { df := [rowBad], df_time_series := [], df_US_time_series := [], lookup_table := [] }

/-! Helper lemmas. -/

/-- Inversion of a successful construction. -/
lemma init_ok_inv (inp : Inputs) (s : Service) (h : init inp = Except.ok s) :
    s.df = inp.df ∧ s.df_time_series = inp.df_time_series ∧
    s.df_US_time_series = inp.df_US_time_series ∧ s.lookup_table = inp.lookup_table ∧
    s.df_grp_by_country = groupByCountry inp.df ∧
    s.scheme = { data := Data.null, dt := s.datetime, ts := s.timestamp } := by
  unfold init at h
  split at h
  · exact absurd h (by simp)
  · split at h
    · exact absurd h (by simp)
    · cases h
      exact ⟨rfl, rfl, rfl, rfl, rfl, rfl⟩

/-- The result component of `get_country`, described as resolution followed
by first-match selection. -/
lemma get_country_snd (s : Service) (name : String) :
    (get_country s name).2 =
      (resolve_name s name).bind fun r =>
        (first_match s r).map fun cd =>
          { data := Data.country cd, dt := s.scheme.dt, ts := s.scheme.ts } := by
  unfold get_country resolve_name first_match
  by_cases hmem : name ∈ (currentData s).map (fun cd => strLower cd.location)
  · rw [if_pos hmem]
    dsimp only [Except.bind, Except.map]
    rcases hf : (currentData s).filter (fun cd => decide (strLower name = strLower cd.location)) with
      _ | ⟨cd, rest⟩ <;> rw [hf] <;> rfl
  · rw [if_neg hmem]
    rcases hl : lookupAssoc s.lookup_table (strUpper name) with _ | v
    · rfl
    · dsimp only [Except.bind, Except.map]
      rcases hf : (currentData s).filter (fun cd => decide (strLower v = strLower cd.location)) with
        _ | ⟨cd, rest⟩ <;> rw [hf] <;> rfl

/-- Every query call leaves the envelope's `dt`/`ts` intact: the new scheme
is always the old one with (at most) `data` replaced. -/
lemma step_scheme (s : Service) (q : Query) :
    ∃ d : Data, (step s q).1.scheme = { s.scheme with data := d } := by
  cases q with
  | current => exact ⟨_, rfl⟩
  | confirmedQ => exact ⟨_, rfl⟩
  | deathsQ => exact ⟨_, rfl⟩
  | recoveredQ => exact ⟨_, rfl⟩
  | activeQ => exact ⟨_, rfl⟩
  | total => exact ⟨_, rfl⟩
  | country n =>
    simp only [step]
    unfold get_country
    split
    · exact ⟨_, rfl⟩
    · split
      · exact ⟨_, rfl⟩
      · exact ⟨_, rfl⟩
  | timeSeries c =>
    simp only [step]
    unfold get_time_series
    split
    · split
      · exact ⟨s.scheme.data, rfl⟩
      · split
        · exact ⟨s.scheme.data, rfl⟩
        · exact ⟨_, rfl⟩
    · split
      · exact ⟨s.scheme.data, rfl⟩
      · exact ⟨_, rfl⟩
  | usTimeSeries c =>
    simp only [step]
    unfold get_US_time_series
    split
    · exact ⟨_, rfl⟩
    · split
      · exact ⟨s.scheme.data, rfl⟩
      · split
        · exact ⟨s.scheme.data, rfl⟩
        · exact ⟨_, rfl⟩

/-- Every query call either fails or returns exactly the (updated) shared
scheme object. -/
lemma step_ok_or_error (s : Service) (q : Query) :
    (step s q).2 = Except.ok ((step s q).1.scheme) ∨
      ∃ e, (step s q).2 = Except.error e := by
  cases q with
  | current => exact Or.inl rfl
  | confirmedQ => exact Or.inl rfl
  | deathsQ => exact Or.inl rfl
  | recoveredQ => exact Or.inl rfl
  | activeQ => exact Or.inl rfl
  | total => exact Or.inl rfl
  | country n =>
    simp only [step]
    unfold get_country
    split
    · exact Or.inr ⟨_, rfl⟩
    · split
      · exact Or.inr ⟨_, rfl⟩
      · exact Or.inl rfl
  | timeSeries c =>
    simp only [step]
    unfold get_time_series
    split
    · split
      · exact Or.inr ⟨_, rfl⟩
      · split
        · exact Or.inr ⟨_, rfl⟩
        · exact Or.inl rfl
    · split
      · exact Or.inr ⟨_, rfl⟩
      · exact Or.inl rfl
  | usTimeSeries c =>
    simp only [step]
    unfold get_US_time_series
    split
    · exact Or.inl rfl
    · split
      · exact Or.inr ⟨_, rfl⟩
      · split
        · exact Or.inr ⟨_, rfl⟩
        · exact Or.inl rfl

/-- On success, every query call returns exactly the (updated) shared
scheme object. -/
lemma step_returns (s : Service) (q : Query) (sch : Scheme)
    (h : (step s q).2 = Except.ok sch) : sch = (step s q).1.scheme := by
  rcases step_ok_or_error s q with hok | ⟨e, herr⟩
  · exact Except.ok.inj (h.symm.trans hok)
  · exact absurd (h.symm.trans herr) (by simp)

/-- Reflexivity: no string is lexicographically below itself. -/
lemma lexLt_self : ∀ a : List Char, lexLt a a = false := by
  intro a
  induction a with
  | nil => rfl
  | cons c cs ih => simp [lexLt, lt_irrefl, ih]

/-- Asymmetry of the lexicographic order. -/
lemma lexLt_asymm : ∀ a b : List Char, lexLt a b = true → lexLt b a = false := by
  intro a
  induction a with
  | nil =>
    intro b hb
    cases b with
    | nil => exact absurd hb (by simp [lexLt])
    | cons d ds => rfl
  | cons c cs ih =>
    intro b hb
    cases b with
    | nil => exact absurd hb (by simp [lexLt])
    | cons d ds =>
      by_cases h1 : c < d
      · have h2 : ¬ d < c := lt_asymm h1
        simp [lexLt, h1, h2]
      · by_cases h2 : d < c
        · simp [lexLt, h1, h2] at hb
        · simp only [lexLt, if_neg h1, if_neg h2] at hb
          simp only [lexLt, if_neg h1, if_neg h2]
          exact ih ds hb

/-- `≤`-transitivity of the lexicographic order, phrased on its negation. -/
lemma lexLt_false_trans : ∀ a b c : List Char,
    lexLt a b = false → lexLt b c = false → lexLt a c = false := by
  intro a
  induction a with
  | nil =>
    intro b c hab hbc
    cases b with
    | nil => exact hbc
    | cons d ds => exact absurd hab (by simp [lexLt])
  | cons x as ih =>
    intro b c hab hbc
    cases b with
    | nil =>
      cases c with
      | nil => rfl
      | cons z cs => exact absurd hbc (by simp [lexLt])
    | cons y bs =>
      cases c with
      | nil => rfl
      | cons z cs =>
        have hxy : ¬ x < y := by
          intro hlt
          simp [lexLt, hlt] at hab
        have hyz : ¬ y < z := by
          intro hlt
          simp [lexLt, hlt] at hbc
        have hxz : ¬ x < z := fun hlt => by
          rcases lt_trichotomy x y with h | h | h
          · exact hxy h
          · exact hyz (h ▸ hlt)
          · exact hyz (lt_trans h hlt)
        simp only [lexLt, if_neg hxz]
        by_cases hzx : z < x
        · simp [hzx]
        · simp only [if_neg hzx]
          have hyx : ¬ y < x := fun hlt => hzx (by
            rcases lt_trichotomy z y with h | h | h
            · exact lt_trans h hlt
            · exact h ▸ hlt
            · exact absurd h hyz)
          have hzy : ¬ z < y := fun hlt => hzx (by
            rcases lt_trichotomy y x with h | h | h
            · exact lt_trans hlt h
            · exact h ▸ hlt
            · exact absurd h hxy)
          have hab2 : lexLt as bs = false := by
            simpa [lexLt, hxy, hyx] using hab
          have hbc2 : lexLt bs cs = false := by
            simpa [lexLt, hyz, hzy] using hbc
          exact ih bs cs hab2 hbc2

/-- The result of Python `max` is one of the inputs. -/
lemma maxString_mem : ∀ (us : List String) (u : String),
    maxString u us = u ∨ maxString u us ∈ us := by
  intro us
  induction us with
  | nil => exact fun u => Or.inl rfl
  | cons b us ih =>
    intro u
    have hstep : maxString u (b :: us) = maxString (if strLt u b then b else u) us := rfl
    by_cases hub : strLt u b = true
    · rw [hstep, if_pos hub]
      rcases ih b with h | h
      · refine Or.inr ?_
        rw [h]
        exact List.mem_cons_self b us
      · exact Or.inr (List.mem_cons_of_mem b h)
    · rw [hstep, if_neg hub]
      rcases ih u with h | h
      · exact Or.inl h
      · exact Or.inr (List.mem_cons_of_mem b h)

/-- The result of Python `max` is an upper bound of the inputs. -/
lemma maxString_ub : ∀ (us : List String) (u x : String), x = u ∨ x ∈ us →
    strLt (maxString u us) x = false := by
  intro us
  induction us with
  | nil =>
    intro u x hx
    rcases hx with rfl | h
    · exact lexLt_self _
    · cases h
  | cons b us ih =>
    intro u x hx
    have hstep : maxString u (b :: us) = maxString (if strLt u b then b else u) us := rfl
    rw [hstep]
    have hacc_u : strLt (if strLt u b then b else u) u = false := by
      by_cases hub : strLt u b = true
      · rw [if_pos hub]
        exact lexLt_asymm _ _ hub
      · rw [if_neg hub]
        exact lexLt_self _
    have hacc_b : strLt (if strLt u b then b else u) b = false := by
      by_cases hub : strLt u b = true
      · rw [if_pos hub]
        exact lexLt_self _
      · rw [if_neg hub]
        exact Bool.not_eq_true _ ▸ (by simpa using hub)
    have hM_acc : strLt (maxString (if strLt u b then b else u) us)
        (if strLt u b then b else u) = false := ih _ _ (Or.inl rfl)
    rcases hx with rfl | hx
    · exact lexLt_false_trans _ _ _ hM_acc hacc_u
    · rcases List.mem_cons.mp hx with rfl | hx2
      · exact lexLt_false_trans _ _ _ hM_acc hacc_b
      · exact ih _ _ (Or.inr hx2)

/-- Destructor for a successful `mapOpt` over a cons cell. -/
lemma mapOpt_cons_some {α β : Type} (f : α → Option β) (a : α) (l : List α) (bs : List β)
    (h : mapOpt f (a :: l) = some bs) :
    ∃ b bs2, f a = some b ∧ mapOpt f l = some bs2 ∧ bs = b :: bs2 := by
  unfold mapOpt at h
  rcases hfa : f a with _ | b <;> rw [hfa] at h
  · exact Option.noConfusion h
  · rcases hrest : mapOpt f l with _ | bs2 <;> rw [hrest] at h
    · exact Option.noConfusion h
    · cases h
      exact ⟨b, bs2, rfl, rfl, rfl⟩

/-- A successful `mapOpt` succeeds pointwise. -/
lemma mapOpt_forall2 {α β : Type} (f : α → Option β) : ∀ (l : List α) (bs : List β),
    mapOpt f l = some bs → List.Forall₂ (fun a b => f a = some b) l bs := by
  intro l
  induction l with
  | nil =>
    intro bs h
    cases h
    exact List.Forall₂.nil
  | cons a l ih =>
    intro bs h
    obtain ⟨b, bs2, hfa, hrest, rfl⟩ := mapOpt_cons_some f a l bs h
    exact List.Forall₂.cons hfa (ih bs2 hrest)

/-- Pointwise success implies `mapOpt` succeeds. -/
lemma mapOpt_some_of_forall {α β : Type} (f : α → Option β) : ∀ l : List α,
    (∀ a ∈ l, ∃ b, f a = some b) →
    ∃ bs, mapOpt f l = some bs ∧ List.Forall₂ (fun a b => f a = some b) l bs := by
  intro l
  induction l with
  | nil => exact fun _ => ⟨[], rfl, List.Forall₂.nil⟩
  | cons a l ih =>
    intro h
    obtain ⟨b, hb⟩ := h a (List.mem_cons_self a l)
    obtain ⟨bs, hbs, hf⟩ := ih fun x hx => h x (List.mem_cons_of_mem a hx)
    refine ⟨b :: bs, ?_, List.Forall₂.cons hb hf⟩
    unfold mapOpt
    rw [hb, hbs]

/-- Right-to-left membership transfer along a `Forall₂`. -/
lemma forall2_mem_right {α β : Type} {R : α → β → Prop} : ∀ {l1 : List α} {l2 : List β},
    List.Forall₂ R l1 l2 → ∀ b ∈ l2, ∃ a ∈ l1, R a b := by
  intro l1 l2 hf
  induction hf with
  | nil => exact fun b hb => absurd hb (List.not_mem_nil b)
  | cons hab htail ih =>
    intro b hb
    rcases List.mem_cons.mp hb with rfl | hb2
    · exact ⟨_, List.mem_cons_self _ _, hab⟩
    · obtain ⟨a, ha, har⟩ := ih b hb2
      exact ⟨a, List.mem_cons_of_mem _ ha, har⟩

/-- The names of the per-kind column sums are the date columns, in order. -/
lemma colSums_enum_names (fr : Frame) : ∀ (ds : List String) (k : Nat) (l : List (String × Int)),
    mapOpt (fun p => (colSum4 fr p.1).map fun v => (p.2, v)) (ds.enumFrom k) = some l →
    l.map Prod.fst = ds := by
  intro ds
  induction ds with
  | nil =>
    intro k l h
    cases h
    rfl
  | cons d ds ih =>
    intro k l h
    obtain ⟨b, bs2, hfa, hrest, rfl⟩ := mapOpt_cons_some _ _ _ _ h
    obtain ⟨v, hv, rfl⟩ := Option.map_eq_some'.mp hfa
    simpa using ih (k + 1) bs2 hrest

/-- Looking a date up in the per-kind column-sum dict computes the sum of
the column with that name (first occurrence). -/
lemma colSums_enum_lookup (fr : Frame) : ∀ (ds : List String) (k : Nat)
    (l : List (String × Int)) (d : String),
    mapOpt (fun p => (colSum4 fr p.1).map fun v => (p.2, v)) (ds.enumFrom k) = some l →
    lookupAssoc l d = if d ∈ ds then colSum4 fr (k + ds.indexOf d) else none := by
  intro ds
  induction ds with
  | nil =>
    intro k l d h
    cases h
    simp [lookupAssoc]
  | cons d0 ds ih =>
    intro k l d h
    obtain ⟨b, bs2, hfa, hrest, rfl⟩ := mapOpt_cons_some _ _ _ _ h
    obtain ⟨v, hv, rfl⟩ := Option.map_eq_some'.mp hfa
    by_cases hd : d0 = d
    · subst hd
      simp [lookupAssoc, List.indexOf_cons, hv]
    · have hne : (d0 == d) = false := by simpa using hd
      simp only [lookupAssoc, if_neg hd, ih (k + 1) bs2 d hrest, List.indexOf_cons, hne,
        cond_false]
      by_cases hmem : d ∈ ds
      · rw [if_pos hmem, if_pos (by simp [hmem])]
        have : k + 1 + ds.indexOf d = k + (ds.indexOf d + 1) := by omega
        rw [this]
      · rw [if_neg hmem, if_neg (by simp [hmem, Ne.symm hd])]

/-- Names of the column sums, at the standard `enum` offset. -/
lemma colSumsFrom4_names (fr : Frame) (l : List (String × Int))
    (h : colSumsFrom4 fr = some l) : l.map Prod.fst = fr.cols.drop 4 :=
  colSums_enum_names fr (fr.cols.drop 4) 0 l h

/-- Column-sum dict lookup agrees with the by-name column sum. -/
lemma colSumsFrom4_lookup (fr : Frame) (l : List (String × Int)) (d : String)
    (h : colSumsFrom4 fr = some l) : lookupAssoc l d = specColSum fr d := by
  have hl := colSums_enum_lookup fr (fr.cols.drop 4) 0 l d h
  unfold specColSum
  simpa using hl

/-- The pointwise content of a successful per-kind sum pass. -/
lemma sums_forall2 (dfs : List (String × Frame)) (sums : List (String × List (String × Int)))
    (h : mapOpt (fun kf => (colSumsFrom4 kf.2).map fun l => (kf.1, l)) dfs = some sums) :
    List.Forall₂ (fun kf kl => kl.1 = kf.1 ∧ colSumsFrom4 kf.2 = some kl.2) dfs sums := by
  have hf := mapOpt_forall2 _ dfs sums h
  refine List.Forall₂.imp ?_ hf
  intro kf kl hkl
  obtain ⟨l0, hl0, hpair⟩ := Option.map_eq_some'.mp hkl
  exact ⟨by rw [← hpair], by rw [← hpair]; exact hl0⟩

/-- The flattened date-name pools of code and spec coincide. -/
lemma sums_names_eq (dfs : List (String × Frame)) (sums : List (String × List (String × Int)))
    (h : List.Forall₂ (fun kf kl => kl.1 = kf.1 ∧ colSumsFrom4 kf.2 = some kl.2) dfs sums) :
    sums.map (fun kl => kl.2.map Prod.fst) = dfs.map fun kf => kf.2.cols.drop 4 := by
  induction h with
  | nil => rfl
  | cons hab htail ih =>
    simp only [List.map_cons, ih, List.cons.injEq, and_true]
    exact colSumsFrom4_names _ _ hab.2

/-- The per-date inner dicts of code and spec coincide. -/
lemma sums_inner_eq (d : String) (dfs : List (String × Frame))
    (sums : List (String × List (String × Int)))
    (h : List.Forall₂ (fun kf kl => kl.1 = kf.1 ∧ colSumsFrom4 kf.2 = some kl.2) dfs sums) :
    (sums.map fun kl =>
        (kl.1, match lookupAssoc kl.2 d with
               | some v => J.num v
               | none => J.null)) =
      dfs.map fun kf =>
        (kf.1, match specColSum kf.2 d with
               | some v => J.num v
               | none => J.null) := by
  induction h with
  | nil => rfl
  | cons hab htail ih =>
    simp only [List.map_cons, ih, List.cons.injEq, and_true]
    rw [hab.1, colSumsFrom4_lookup _ _ _ hab.2]

/-- A successful `__extract_time_series_global` computes exactly the
spec-shaped payload: one entry per distinct date, keyed by date, with
per-kind daily totals inside. -/
lemma extract_global_eq_spec (dfs : List (String × Frame))
    (res : List (String × List (String × J)))
    (h : extract_time_series_global dfs = some res) : res = globalSpecData dfs := by
  unfold extract_time_series_global at h
  by_cases hne : dfs.isEmpty
  · rw [if_pos hne] at h
    exact Option.noConfusion h
  · rw [if_neg hne] at h
    rcases hsums : mapOpt (fun kf => (colSumsFrom4 kf.2).map fun l => (kf.1, l)) dfs with
      _ | sums <;> rw [hsums] at h
    · exact Option.noConfusion h
    · cases h
      have hf := sums_forall2 dfs sums hsums
      unfold globalSpecData
      rw [← sums_names_eq dfs sums hf]
      exact List.map_congr_left fun d _ => by rw [sums_inner_eq d dfs sums hf]

/-- The `int(v)` comprehension over numeric date cells succeeds and computes
the coercions pairwise, in order. -/
lemma mapOpt_zip_num : ∀ (dates : List String) (dv : List J),
    (∀ v ∈ dv, ∃ n : Int, v = J.num n) →
    mapOpt (fun kv => (cellInt kv.2).map fun n => (kv.1, n)) (dates.zip dv) =
      some ((dates.zip dv).map fun p => (p.1, cellIntD p.2)) := by
  intro dates
  induction dates with
  | nil => exact fun dv _ => rfl
  | cons d dates ih =>
    intro dv h
    cases dv with
    | nil => rfl
    | cons v dv =>
      obtain ⟨n, rfl⟩ := h v (List.mem_cons_self v dv)
      have hrest := ih dv fun w hw => h w (List.mem_cons_of_mem _ hw)
      rw [List.zip_cons_cons, List.map_cons]
      unfold mapOpt
      rw [hrest]
      rfl

/-- One US row in schema position: the reshaped record is exactly the
record built from the identity cells and the date cells in column order. -/
lemma extract_US_row_spec (dates : List String) (dv : List J)
    (u i2 i3 c3 fi a2 ps cr ck po : J) (la lo : Int)
    (hdates : ∀ d ∈ dates, d ∉ excludedUSCols)
    (hnum : ∀ v ∈ dv, ∃ n : Int, v = J.num n) :
    extract_US_row ((usIdentityCols ++ dates).zip
        ([u, i2, i3, c3, fi, a2, ps, cr, J.num la, J.num lo, ck, po] ++ dv)) =
      some (J.obj [("Province_State", ps), ("Country_Region", cr),
        ("Info", J.obj [("UID", u), ("iso2", i2), ("iso3", i3), ("code3", c3),
                        ("FIPS", fi), ("Admin2", a2)]),
        ("Coordinates", J.obj [("Lat", J.num la), ("Long", J.num lo)]),
        ("TimeSeries", J.arr ((dates.zip dv).map fun p =>
          J.obj [("date", J.str p.1), ("value", J.num (cellIntD p.2))]))]) := by
  rw [List.zip_append
    (show usIdentityCols.length =
      ([u, i2, i3, c3, fi, a2, ps, cr, J.num la, J.num lo, ck, po] : List J).length from rfl)]
  show Option.bind
      (mapOpt (fun kv => (cellInt kv.2).map fun n => (kv.1, n))
        (List.filter (fun kv => decide (¬ kv.1 ∈ excludedUSCols)) (dates.zip dv)))
      (fun ts => some (J.obj [("Province_State", ps), ("Country_Region", cr),
        ("Info", J.obj [("UID", u), ("iso2", i2), ("iso3", i3), ("code3", c3),
                        ("FIPS", fi), ("Admin2", a2)]),
        ("Coordinates", J.obj [("Lat", J.num la), ("Long", J.num lo)]),
        ("TimeSeries", J.arr (ts.map fun p =>
          J.obj [("date", J.str p.1), ("value", J.num p.2)]))])) = _
  rw [List.filter_eq_self.mpr fun kv hkv =>
    decide_eq_true (hdates kv.1 (List.of_mem_zip hkv).1)]
  rw [mapOpt_zip_num dates dv hnum]
  simp only [Option.bind, List.map_map]
  rfl

/-- `dt`/`ts` of the shared scheme are invariant under any call sequence. -/
lemma runQueries_dtts (qs : List Query) : ∀ s : Service,
    (runQueries s qs).scheme.dt = s.scheme.dt ∧
      (runQueries s qs).scheme.ts = s.scheme.ts := by
  induction qs with
  | nil => exact fun s => ⟨rfl, rfl⟩
  | cons q qs ih =>
    intro s
    obtain ⟨d, hd⟩ := step_scheme s q
    have hrec := ih (step s q).1
    unfold runQueries at hrec ⊢
    rw [List.foldl_cons]
    refine ⟨?_, ?_⟩
    · rw [hrec.1, hd]
    · rw [hrec.2, hd]

/-! Claim theorems. -/

/-- C2: for every constructed service, the four values in `get_total()`'s
`data` object equal, respectively, the `data` values returned by
`get_confirmed()`, `get_deaths()`, `get_recovered()` and `get_active()`,
each being the integer sum of that column over all raw daily-report rows. -/
theorem C2_total_components (inp : Inputs) (s : Service) (h : init inp = Except.ok s) :
    ∃ c d r a : Int,
      (get_confirmed s).2.data = Data.int c ∧
      (get_deaths s).2.data = Data.int d ∧
      (get_recovered s).2.data = Data.int r ∧
      (get_active s).2.data = Data.int a ∧
      (get_total s).2.data = Data.totals c d r a ∧
      c = (s.df.map fun x => x.confirmed).sum ∧
      d = (s.df.map fun x => x.deaths).sum ∧
      r = (s.df.map fun x => x.recovered).sum ∧
      a = (s.df.map fun x => x.active).sum :=
  ⟨_, _, _, _, rfl, rfl, rfl, rfl, rfl, rfl, rfl, rfl, rfl⟩

/-- Witness for C2 at the concrete service built from `inpA`. -/
theorem C2_witness :
    ∃ c d r a : Int,
      (get_confirmed serviceA).2.data = Data.int c ∧
      (get_deaths serviceA).2.data = Data.int d ∧
      (get_recovered serviceA).2.data = Data.int r ∧
      (get_active serviceA).2.data = Data.int a ∧
      (get_total serviceA).2.data = Data.totals c d r a ∧
      c = (serviceA.df.map fun x => x.confirmed).sum ∧
      d = (serviceA.df.map fun x => x.deaths).sum ∧
      r = (serviceA.df.map fun x => x.recovered).sum ∧
      a = (serviceA.df.map fun x => x.active).sum :=
  C2_total_components inpA serviceA initA_ok

/-- C5: for every string `case` that is neither `"global"` nor one of the
configured case kinds (the keys of the loaded time-series dict),
`get_time_series(case)` fails with `UnknownCase`. -/
theorem C5_unknown_case (inp : Inputs) (s : Service) (case : String)
    (h : init inp = Except.ok s) (hg : case ≠ "global")
    (hk : lookupAssoc s.df_time_series case = none) :
    (get_time_series s case).2 = Except.error Err.unknownCase := by
  unfold get_time_series
  rw [if_pos (by simp [hg]), hk]

/-- Witness for C5: `get_time_series("doesnotexist")` raises `UnknownCase`
on the concrete service. -/
theorem C5_witness :
    (get_time_series serviceA "doesnotexist").2 = Except.error Err.unknownCase :=
  C5_unknown_case inpA serviceA "doesnotexist" initA_ok (by decide) rfl

/-- C6: for every string `case` not in `{"confirmed", "deaths"}`,
`get_US_time_series(case)` does not fail: it returns the envelope with the
empty list as `data` and the construction-time `dt`/`ts` values. -/
theorem C6_us_invalid (inp : Inputs) (s : Service) (case : String)
    (h : init inp = Except.ok s) (hc : case ∉ (["confirmed", "deaths"] : List String)) :
    (get_US_time_series s case).2 =
      Except.ok { data := Data.jlist [], dt := s.datetime, ts := s.timestamp } := by
  obtain ⟨-, -, -, -, -, hsch⟩ := init_ok_inv inp s h
  unfold get_US_time_series
  rw [if_pos hc, hsch]

/-- Witness for C6: `get_US_time_series("recovered")` on the concrete
service returns the empty-data envelope. -/
theorem C6_witness :
    (get_US_time_series serviceA "recovered").2 =
      Except.ok { data := Data.jlist [], dt := serviceA.datetime, ts := serviceA.timestamp } :=
  C6_us_invalid inpA serviceA "recovered" initA_ok (by decide)

/-- C3 counterexample: on the service built from `inpB`, the aggregate
contains `"Thailand"`, so a case-insensitive match for the query
`"Thailand"` exists; the claim therefore demands that no lookup-table
resolution happen and that the matching record be returned — but the call
fails, because the first test compares the unmodified argument against the
lowercased locations and then consults the lookup table, which lacks
`"THAILAND"`. -/
theorem C3_counterexample :
    strLower "Thailand" ∈ (currentData serviceB).map (fun cd => strLower cd.location) ∧
    (get_country serviceB "Thailand").2 = Except.error Err.locationNotFound :=
  ⟨by decide, rfl⟩

/-- C3 (amended): `get_country(name)` first checks whether `name` is
*literally equal* to the lowercase form of some aggregated country name
(not a case-insensitive match); if and only if that check fails, it
uppercases `name` and looks it up in the lookup table to obtain a canonical
name (failing when absent), and the resolved name is then matched
case-insensitively, the first matching per-country record becoming `data`. -/
theorem C3_get_country_resolution (inp : Inputs) (s : Service) (name : String)
    (h : init inp = Except.ok s) :
    (get_country s name).2 =
      (resolve_name s name).bind fun r =>
        (first_match s r).map fun cd =>
          { data := Data.country cd, dt := s.datetime, ts := s.timestamp } := by
  obtain ⟨-, -, -, -, -, hsch⟩ := init_ok_inv inp s h
  rw [get_country_snd, hsch]

/-- Witness for C3 (amended) at the concrete service and the query
`"Thailand"`. -/
theorem C3_witness :
    (get_country serviceA "Thailand").2 =
      (resolve_name serviceA "Thailand").bind fun r =>
        (first_match serviceA r).map fun cd =>
          { data := Data.country cd, dt := serviceA.datetime, ts := serviceA.timestamp } :=
  C3_get_country_resolution inpA serviceA "Thailand" initA_ok

/-- C4 counterexample: on the service built from `inpB`, `"Thailand"` is a
country name present in the aggregate and the lookup table maps the code
`"TH"` to that same country, yet `get_country("TH")` succeeds while
`get_country("Thailand")` raises — the two results are not identical. -/
theorem C4_counterexample :
    serviceB.df_grp_by_country.map (fun c => c.location) = ["Thailand"] ∧
    lookupAssoc serviceB.lookup_table "TH" = some "Thailand" ∧
    (get_country serviceB "Thailand").2 = Except.error Err.locationNotFound ∧
    (get_country serviceB "TH").2 ≠ (get_country serviceB "Thailand").2 := by
  refine ⟨rfl, rfl, rfl, ?_⟩
  intro hcontra
  have h1 : (get_country serviceB "TH").2 =
      Except.ok ⟨Data.country ⟨"Thailand", 5, 1, 2, 2⟩, "2020-03-14 10:00:00", 1584180000⟩ := rfl
  have h2 : (get_country serviceB "Thailand").2 = Except.error Err.locationNotFound := rfl
  rw [h1, h2] at hcontra
  exact Except.noConfusion hcontra

/-- C4 (amended): for a country name `name` present in the aggregate and a
code `code` that the lookup table maps (after uppercasing) to that name,
`get_country(name)` and `get_country(code)` return identical `data`,
provided that (a) `code` is not itself the lowercase form of an aggregated
country name (else it is taken as a name directly), and (b) `name` itself
resolves — it is the lowercase of an aggregated name, or the lookup table
also maps `name.upper()` to a name with the same lowercase. -/
theorem C4_code_name_agree (inp : Inputs) (s : Service) (name code : String)
    (h : init inp = Except.ok s)
    (hname_agg : name ∈ (currentData s).map fun cd => cd.location)
    (hlookup : lookupAssoc s.lookup_table (strUpper code) = some name)
    (hcode : code ∉ (currentData s).map fun cd => strLower cd.location)
    (hname_res : name ∈ ((currentData s).map fun cd => strLower cd.location) ∨
      ∃ nm, lookupAssoc s.lookup_table (strUpper name) = some nm ∧ strLower nm = strLower name) :
    (get_country s name).2 = (get_country s code).2 := by
  have hrescode : resolve_name s code = Except.ok name := by
    unfold resolve_name
    rw [if_neg hcode, hlookup]
  have hresname : ∃ r, resolve_name s name = Except.ok r ∧ strLower r = strLower name := by
    unfold resolve_name
    by_cases hmem : name ∈ (currentData s).map fun cd => strLower cd.location
    · exact ⟨name, by rw [if_pos hmem], rfl⟩
    · rcases hname_res with h1 | ⟨nm, hnm, hnml⟩
      · exact absurd h1 hmem
      · exact ⟨nm, by rw [if_neg hmem, hnm], hnml⟩
  obtain ⟨r, hr, hrl⟩ := hresname
  rw [get_country_snd, get_country_snd, hr, hrescode]
  dsimp only [Except.bind]
  have hfm : first_match s r = first_match s name := by
    unfold first_match
    rw [show (fun cd : CountryAgg => decide (strLower r = strLower cd.location)) =
        fun cd => decide (strLower name = strLower cd.location) from funext fun cd => by
      rw [hrl]]
  rw [hfm]

/-- Witness for C4 (amended): on the concrete service, querying by name
`"Thailand"` and by code `"TH"` yields identical results. -/
theorem C4_witness :
    (get_country serviceA "Thailand").2 = (get_country serviceA "TH").2 :=
  C4_code_name_agree inpA serviceA "Thailand" "TH" initA_ok (by decide) rfl (by decide)
    (Or.inr ⟨"Thailand", rfl, rfl⟩)

/-- C9: on success every query call returns exactly the shared envelope (the
scheme stored in the post-state); each call only replaces the envelope's
`data` field; and across any sequence of query calls the envelope's
`dt`/`ts` remain exactly the construction-time values. -/
theorem C9_envelope_invariant (inp : Inputs) (s : Service) (h : init inp = Except.ok s) :
    (∀ qs : List Query, (runQueries s qs).scheme.dt = s.datetime ∧
      (runQueries s qs).scheme.ts = s.timestamp) ∧
    (∀ (s2 : Service) (q : Query) (sch : Scheme),
      (step s2 q).2 = Except.ok sch → sch = (step s2 q).1.scheme) ∧
    (∀ (s2 : Service) (q : Query), ∃ d : Data,
      (step s2 q).1.scheme = { s2.scheme with data := d }) := by
  obtain ⟨-, -, -, -, -, hsch⟩ := init_ok_inv inp s h
  refine ⟨fun qs => ?_, step_returns, step_scheme⟩
  obtain ⟨h1, h2⟩ := runQueries_dtts qs s
  constructor
  · rw [h1, hsch]
  · rw [h2, hsch]

/-- Witness for C9: a concrete four-call sequence leaves `dt`/`ts` at their
construction-time values. -/
theorem C9_witness :
    (runQueries serviceA [Query.current, Query.country "thailand", Query.total,
        Query.usTimeSeries "recovered"]).scheme.dt = serviceA.datetime ∧
    (runQueries serviceA [Query.current, Query.country "thailand", Query.total,
        Query.usTimeSeries "recovered"]).scheme.ts = serviceA.timestamp :=
  (C9_envelope_invariant inpA serviceA initA_ok).1 _

/-- C7 counterexample: `inpC` contains a row whose `Last_Update` does not
match the timestamp format, yet construction succeeds, because only the
lexicographically greatest `Last_Update` string is ever parsed. -/
theorem C7_counterexample :
    parseTs rowBad.last_Update = none ∧
    rowBad ∈ inpC.df ∧
    init inpC = Except.ok serviceC :=
  ⟨rfl, by decide, rfl⟩

/-- C7 (amended): construction fails with `EmptyDataset` on zero rows, and
with `MalformedTimestamp` exactly when the *maximum* `Last_Update` string
(the only one parsed) is malformed; otherwise it succeeds with `dt` the
maximum `Last_Update` string and `ts` its parsed Unix timestamp.  The last
two conjuncts substantiate "maximum": the chosen string is an upper bound
of, and (for nonempty input) a member of, the `Last_Update` column. -/
theorem C7_construction (inp : Inputs) :
    (inp.df = [] → init inp = Except.error Err.emptyDataset) ∧
    (inp.df ≠ [] → parseTs (maxLastUpdate inp) = none →
      init inp = Except.error Err.malformedTimestamp) ∧
    (∀ t : Int, inp.df ≠ [] → parseTs (maxLastUpdate inp) = some t →
      ∃ s, init inp = Except.ok s ∧ s.datetime = maxLastUpdate inp ∧
        s.timestamp = t ∧ s.scheme.dt = maxLastUpdate inp ∧ s.scheme.ts = t) ∧
    (∀ r ∈ inp.df, strLt (maxLastUpdate inp) r.last_Update = false) ∧
    (inp.df ≠ [] → maxLastUpdate inp ∈ inp.df.map fun r => r.last_Update) := by
  rcases hdf : inp.df with _ | ⟨r0, rest⟩
  · refine ⟨fun _ => ?_, fun hne _ => absurd rfl hne, fun t hne _ => absurd rfl hne,
      fun r hr => absurd hr (List.not_mem_nil r), fun hne => absurd rfl hne⟩
    unfold init
    rw [hdf]
    rfl
  · have hmax : maxLastUpdate inp = maxString r0.last_Update (rest.map fun r => r.last_Update) := by
      unfold maxLastUpdate
      rw [hdf]
      rfl
    refine ⟨fun he => List.noConfusion he, fun _ hp => ?_, fun t _ hp => ?_,
      fun r hr => ?_, fun _ => ?_⟩
    · unfold init
      rw [hdf]
      dsimp only [List.map]
      rw [← hmax, hp]
    · unfold init
      rw [hdf]
      dsimp only [List.map]
      rw [← hmax, hp]
      exact ⟨_, rfl, rfl, rfl, rfl, rfl⟩
    · rw [hmax]
      rcases List.mem_cons.mp hr with rfl | hr2
      · exact maxString_ub _ _ _ (Or.inl rfl)
      · exact maxString_ub _ _ _ (Or.inr (List.mem_map_of_mem _ hr2))
    · rw [hmax]
      dsimp only [List.map]
      rcases maxString_mem (rest.map fun r => r.last_Update) r0.last_Update with hm | hm
      · rw [hm]
        exact List.mem_cons_self _ _
      · exact List.mem_cons_of_mem _ hm

/-- Witness for C7 (amended): the three construction modes at concrete
inputs — no rows, a malformed maximum, and a well-formed maximum. -/
theorem C7_witness :
    init inpEmpty = Except.error Err.emptyDataset ∧
    init inpBadTs = Except.error Err.malformedTimestamp ∧
    ∃ s, init inpC = Except.ok s ∧ s.datetime = maxLastUpdate inpC ∧
      s.timestamp = 1584180000 ∧ s.scheme.dt = maxLastUpdate inpC ∧
      s.scheme.ts = 1584180000 :=
  ⟨(C7_construction inpEmpty).1 rfl,
   (C7_construction inpBadTs).2.1 (by decide) rfl,
   (C7_construction inpC).2.2.1 1584180000 (by decide) rfl⟩

/-- C8 counterexample: on the concrete service, the global time series is a
sequence of single-entry objects keyed by *date* (value: per-kind totals),
not keyed by case kind as the claim's shape `{case_kind: {date: total}}`
demands — the two shapes differ as values. -/
theorem C8_counterexample :
    (get_time_series serviceA "global").2 =
      Except.ok ⟨Data.globalSeries
        [("4/1/20", [("confirmed", J.num 12)]), ("4/2/20", [("confirmed", J.num 15)])],
        "2020-03-14 10:00:00", 1584180000⟩ ∧
    Data.globalSeries [("4/1/20", [("confirmed", J.num 12)]),
        ("4/2/20", [("confirmed", J.num 15)])] ≠
      Data.globalSeries [("confirmed", [("4/1/20", J.num 12), ("4/2/20", J.num 15)])] := by
  refine ⟨rfl, ?_⟩
  intro hcontra
  injection hcontra with hl
  injection hl with hhead _
  injection hhead with h1 _
  exact absurd h1 (by decide)

/-- C8 (amended): `get_time_series("global")` returns, whenever the global
extraction succeeds, one single-entry object per distinct date (in order of
first appearance across the kinds' date columns), keyed by *date*, whose
value maps each case kind to the int32-cast sum of that date column over
all rows of that kind's wide table (columns after the first four), null for
kinds lacking the date — i.e. exactly the spec-shaped `globalSpecData`. -/
theorem C8_global_series (inp : Inputs) (s : Service)
    (h : init inp = Except.ok s) (res : List (String × List (String × J)))
    (hres : extract_time_series_global s.df_time_series = some res) :
    (get_time_series s "global").2 =
      Except.ok { data := Data.globalSeries res, dt := s.datetime, ts := s.timestamp } ∧
    res = globalSpecData s.df_time_series := by
  obtain ⟨-, -, -, -, -, hsch⟩ := init_ok_inv inp s h
  refine ⟨?_, extract_global_eq_spec _ _ hres⟩
  unfold get_time_series
  rw [if_neg (by decide), hres, hsch]

/-- Witness for C8 (amended) at the concrete service. -/
theorem C8_witness :
    (get_time_series serviceA "global").2 =
      Except.ok ⟨Data.globalSeries
        [("4/1/20", [("confirmed", J.num 12)]), ("4/2/20", [("confirmed", J.num 15)])],
        serviceA.datetime, serviceA.timestamp⟩ ∧
    [("4/1/20", [("confirmed", J.num 12)]), ("4/2/20", [("confirmed", J.num 15)])] =
      globalSpecData serviceA.df_time_series :=
  C8_global_series inpA serviceA initA_ok _ rfl

/-- C10: for a valid case and a US frame following the US schema (the
twelve identity columns then date columns disjoint from them), every record
of `get_US_time_series(case)` has exactly the keys `Province_State`,
`Country_Region`, `Info`, `Coordinates`, `TimeSeries`; `Combined_Key` and
`Population` appear neither among `Info`'s keys nor among the TimeSeries
dates; and every TimeSeries entry's value is the integer coercion of the
corresponding date cell, with dates in original column order. -/
theorem C10_us_record_shape (inp : Inputs) (s : Service) (case : String) (fr : Frame)
    (dates : List String) (h : init inp = Except.ok s)
    (hcase : case = "confirmed" ∨ case = "deaths")
    (hfr : lookupAssoc s.df_US_time_series case = some fr)
    (hcols : fr.cols = usIdentityCols ++ dates)
    (hdates : ∀ d ∈ dates, d ∉ excludedUSCols)
    (hrows : ∀ r ∈ fr.rows, ∃ u i2 i3 c3 fi a2 ps cr ck po dv, ∃ la lo : Int,
      r = [u, i2, i3, c3, fi, a2, ps, cr, J.num la, J.num lo, ck, po] ++ dv ∧
      ∀ v ∈ dv, ∃ n : Int, v = J.num n) :
    ∃ res : List J,
      (get_US_time_series s case).2 =
        Except.ok { data := Data.jlist res, dt := s.datetime, ts := s.timestamp } ∧
      res.length = fr.rows.length ∧
      ∀ rec ∈ res, ∃ ps cr info lat long tsl,
        rec = J.obj [("Province_State", ps), ("Country_Region", cr), ("Info", J.obj info),
                     ("Coordinates", J.obj [("Lat", lat), ("Long", long)]),
                     ("TimeSeries", J.arr tsl)] ∧
        info.map Prod.fst = ["UID", "iso2", "iso3", "code3", "FIPS", "Admin2"] ∧
        ("Combined_Key" ∉ info.map Prod.fst ∧ "Population" ∉ info.map Prod.fst) ∧
        ("Combined_Key" ∉ dates ∧ "Population" ∉ dates) ∧
        ∃ r ∈ fr.rows, tsl = (dates.zip (r.drop 12)).map fun p =>
          J.obj [("date", J.str p.1), ("value", J.num (cellIntD p.2))] := by
  obtain ⟨-, -, -, -, -, hsch⟩ := init_ok_inv inp s h
  have hvalid : ¬ case ∉ (["confirmed", "deaths"] : List String) := by
    rcases hcase with rfl | rfl <;> decide
  have hrowsOk : ∀ row ∈ frameRows fr, ∃ rec, extract_US_row row = some rec := by
    intro row hrow
    obtain ⟨r, hrmem, rfl⟩ := List.mem_map.mp hrow
    obtain ⟨u, i2, i3, c3, fi, a2, ps, cr, ck, po, dv, la, lo, hr, hnum⟩ := hrows r hrmem
    rw [hr, hcols]
    exact ⟨_, extract_US_row_spec dates dv u i2 i3 c3 fi a2 ps cr ck po la lo hdates hnum⟩
  obtain ⟨res, hres, hfor⟩ := mapOpt_some_of_forall extract_US_row (frameRows fr) hrowsOk
  refine ⟨res, ?_, ?_, ?_⟩
  · unfold get_US_time_series
    rw [if_neg hvalid, hfr]
    dsimp only
    rw [show extract_US_time_series fr = some res from hres]
    dsimp only
    rw [hsch]
  · have hlen := hfor.length_eq
    simpa [frameRows] using hlen.symm
  · intro rec hrec
    obtain ⟨row, hrowmem, hrowext⟩ := forall2_mem_right hfor rec hrec
    obtain ⟨r, hrmem, rfl⟩ := List.mem_map.mp hrowmem
    obtain ⟨u, i2, i3, c3, fi, a2, ps, cr, ck, po, dv, la, lo, hr, hnum⟩ := hrows r hrmem
    rw [hr, hcols,
      extract_US_row_spec dates dv u i2 i3 c3 fi a2 ps cr ck po la lo hdates hnum] at hrowext
    cases hrowext
    refine ⟨ps, cr,
      [("UID", u), ("iso2", i2), ("iso3", i3), ("code3", c3), ("FIPS", fi), ("Admin2", a2)],
      J.num la, J.num lo,
      (dates.zip dv).map (fun p => J.obj [("date", J.str p.1), ("value", J.num (cellIntD p.2))]),
      rfl, rfl,
      ⟨by
        show "Combined_Key" ∉ (["UID", "iso2", "iso3", "code3", "FIPS", "Admin2"] : List String)
        decide,
       by
        show "Population" ∉ (["UID", "iso2", "iso3", "code3", "FIPS", "Admin2"] : List String)
        decide⟩,
      ⟨fun hm => hdates _ hm (by decide), fun hm => hdates _ hm (by decide)⟩,
      ⟨r, hrmem, ?_⟩⟩
    rw [hr]
    rfl

/-- Witness for C10 at the concrete US frame. -/
theorem C10_witness :
    ∃ res : List J,
      (get_US_time_series serviceA "confirmed").2 =
        Except.ok { data := Data.jlist res, dt := serviceA.datetime,
                    ts := serviceA.timestamp } ∧
      res.length = frameUS.rows.length ∧
      ∀ rec ∈ res, ∃ ps cr info lat long tsl,
        rec = J.obj [("Province_State", ps), ("Country_Region", cr), ("Info", J.obj info),
                     ("Coordinates", J.obj [("Lat", lat), ("Long", long)]),
                     ("TimeSeries", J.arr tsl)] ∧
        info.map Prod.fst = ["UID", "iso2", "iso3", "code3", "FIPS", "Admin2"] ∧
        ("Combined_Key" ∉ info.map Prod.fst ∧ "Population" ∉ info.map Prod.fst) ∧
        ("Combined_Key" ∉ (["4/1/20", "4/2/20"] : List String) ∧
          "Population" ∉ (["4/1/20", "4/2/20"] : List String)) ∧
        ∃ r ∈ frameUS.rows, tsl = ((["4/1/20", "4/2/20"] : List String).zip (r.drop 12)).map
          fun p => J.obj [("date", J.str p.1), ("value", J.num (cellIntD p.2))] :=
  C10_us_record_shape inpA serviceA "confirmed" frameUS ["4/1/20", "4/2/20"] initA_ok
    (Or.inl rfl) rfl rfl (by decide)
    (fun r hr => by
      rcases List.mem_singleton.mp hr with rfl
      exact ⟨J.num 840, J.str "US", J.str "USA", J.num 840, J.num 45001, J.str "Abbeville",
        J.str "South Carolina", J.str "US", J.str "Abbeville, South Carolina, US",
        J.num 24527, [J.num 3, J.num 5], 34, -82, rfl,
        fun v hv => by
          rcases List.mem_cons.mp hv with rfl | hv2
          · exact ⟨3, rfl⟩
          · rcases List.mem_singleton.mp hv2 with rfl
            exact ⟨5, rfl⟩⟩)

end Covid
